import Mathlib

/-!
Shallow embedding of the Axelor Open Platform form-builder widget code
(`FormWidget`, `useExpressions`, `processSchema`, `FormField.valueCheck`)
and of the `Phone` form widget, with theorems checking the specification
claims against these definitions.

JavaScript values that flow through the widget code (record fields,
expression results) are modelled by the inductive type `Val`; `vobj`
stands for an object reference, so that `Val`-equality models the
JavaScript strict-equality used on these values.  Optional string/bool
properties of a schema are `Option String` / `Option Bool`, `none`
standing for an absent (`undefined`) property.
-/

/-- A JavaScript value as used by the widget code: `vundef` is
`undefined`, `vnull` is `null`, `vobj n` is a reference to object
number `n` (strict equality on objects is reference equality). -/
inductive Val where
  | vundef : Val
  | vnull : Val
  | vbool : Bool → Val
  | vnum : Int → Val
  | vstr : String → Val
  | vobj : Nat → Val
deriving DecidableEq, Repr

/-- JavaScript truthiness (`Boolean(v)`) of a `Val`. -/
def jsBool : Val → Bool
  | .vundef => false
  | .vnull => false
  | .vbool b => b
  | .vnum n => n ≠ 0
  | .vstr s => s ≠ ""
  | .vobj _ => true

/-- Truthiness of an optional string property (`undefined` and the
empty string are falsy, every other string is truthy). -/
def jsTruthyStr : Option String → Bool
  | none => false
  | some s => s ≠ ""

/-- Truthiness of an optional boolean property (`undefined` is falsy). -/
def jsTruthyBool : Option Bool → Bool
  | none => false
  | some b => b

/-- The `editor` sub-object of a schema; only its presence and whether
it carries a `viewer` matter to `FormWidget`. -/
structure EditorDef where
  viewer : Bool
deriving DecidableEq, Repr

/-- The slice of the `Schema` type used by the embedded code: type,
naming, json-field context information, the conditional-expression
strings, the `bind` expression, and the editor/viewer sub-views. -/
structure Schema where
  type : String := "field"
  name : Option String := none
  title : Option String := none
  widget : Option String := none
  jsonField : Option String := none
  contextField : Option String := none
  contextFieldValue : Option String := none
  hidden : Option Bool := none
  required : Option Bool := none
  showIf : Option String := none
  hideIf : Option String := none
  readonlyIf : Option String := none
  requiredIf : Option String := none
  validIf : Option String := none
  collapseIf : Option String := none
  canNew : Option String := none
  canEdit : Option String := none
  canView : Option String := none
  canSave : Option String := none
  canCopy : Option String := none
  canRemove : Option String := none
  canDelete : Option String := none
  canArchive : Option String := none
  canAttach : Option String := none
  canSelect : Option String := none
  bind : Option String := none
  editor : Option EditorDef := none
  viewer : Bool := false
deriving DecidableEq, Repr

/-- `isField` from the source: a schema gets a value atom when it has a
(truthy) `jsonField` or its type is `"field"` or `"panel-related"`. -/
def isField (schema : Schema) : Bool :=
  jsTruthyStr schema.jsonField || schema.type == "field" ||
    schema.type == "panel-related"

/-- `processSchema` from the source: for a json field carrying context
information, fold the context condition into `showIf`/`requiredIf`
and clear `hideIf`; otherwise return the schema unchanged. -/
def processSchema (schema : Schema) : Schema :=
  let jsonField := schema.jsonField
  let contextField := schema.contextField
  let contextFieldValue := schema.contextFieldValue
  let hidden := schema.hidden
  let required := schema.required
  let showIf := schema.showIf
  let hideIf := schema.hideIf
  let requiredIf := schema.requiredIf
  if !jsTruthyStr jsonField || !jsTruthyStr contextField ||
      !jsTruthyStr contextFieldValue ||
      (jsTruthyBool hidden && !jsTruthyStr showIf && !jsTruthyStr hideIf) then
    schema
  else
    let ctxCond :=
      "($record." ++ contextField.getD "" ++ ".id === " ++
        contextFieldValue.getD "" ++ ")"
    let ctxRequiredIf :=
      if jsTruthyBool required || jsTruthyStr requiredIf then
        some (if jsTruthyStr requiredIf then
          ctxCond ++ " && (" ++ requiredIf.getD "" ++ ")"
        else ctxCond)
      else requiredIf
    let ctxShowIf₁ :=
      if jsTruthyStr showIf then
        ctxCond ++ " && (" ++ showIf.getD "" ++ ")"
      else ctxCond
    let ctxShowIf₂ :=
      if jsTruthyStr hideIf then
        ctxShowIf₁ ++ " && !(" ++ hideIf.getD "" ++ ")"
      else ctxShowIf₁
    { schema with
      showIf := some ctxShowIf₂
      hideIf := none
      requiredIf := ctxRequiredIf }

/-- The boolean widget attributes that `handleCondition` can target
(`set(widgetAtom, { ...state, attrs: { ...attrs, [attr]: next } })`). -/
inductive AttrName where
  | hidden | readonly | required | collapse
  | canNew | canEdit | canView | canSave | canCopy
  | canRemove | canDelete | canArchive | canAttach | canSelect
deriving DecidableEq, Repr

/-- The widget attribute record (`state.attrs`): the boolean attributes
written by `handleCondition` plus the title read by `handleValidation`.
`none` stands for an attribute key that is not present. -/
structure Attrs where
  title : Option String := none
  hidden : Option Bool := none
  readonly : Option Bool := none
  required : Option Bool := none
  collapse : Option Bool := none
  canNew : Option Bool := none
  canEdit : Option Bool := none
  canView : Option Bool := none
  canSave : Option Bool := none
  canCopy : Option Bool := none
  canRemove : Option Bool := none
  canDelete : Option Bool := none
  canArchive : Option Bool := none
  canAttach : Option Bool := none
  canSelect : Option Bool := none
deriving DecidableEq, Repr

/-- Dynamic read `attrs[attr]` of a boolean widget attribute. -/
def getAttr (a : Attrs) : AttrName → Option Bool
  | .hidden => a.hidden
  | .readonly => a.readonly
  | .required => a.required
  | .collapse => a.collapse
  | .canNew => a.canNew
  | .canEdit => a.canEdit
  | .canView => a.canView
  | .canSave => a.canSave
  | .canCopy => a.canCopy
  | .canRemove => a.canRemove
  | .canDelete => a.canDelete
  | .canArchive => a.canArchive
  | .canAttach => a.canAttach
  | .canSelect => a.canSelect

/-- Dynamic write `{ ...attrs, [attr]: v }` of a boolean widget attribute. -/
def setAttr (a : Attrs) : AttrName → Bool → Attrs
  | .hidden, v => { a with hidden := some v }
  | .readonly, v => { a with readonly := some v }
  | .required, v => { a with required := some v }
  | .collapse, v => { a with collapse := some v }
  | .canNew, v => { a with canNew := some v }
  | .canEdit, v => { a with canEdit := some v }
  | .canView, v => { a with canView := some v }
  | .canSave, v => { a with canSave := some v }
  | .canCopy, v => { a with canCopy := some v }
  | .canRemove, v => { a with canRemove := some v }
  | .canDelete, v => { a with canDelete := some v }
  | .canArchive, v => { a with canArchive := some v }
  | .canAttach, v => { a with canAttach := some v }
  | .canSelect, v => { a with canSelect := some v }

/-- The widget error record (`WidgetErrors`): each field is an error
message keyed by its kind, `none` when the key is absent. -/
structure WErrors where
  error : Option String := none
  invalid : Option String := none
  required : Option String := none
  pattern : Option String := none
deriving DecidableEq, Repr

/-- Widget state as read/written by the embedded handlers: attributes
and errors (`errors` is `none` when the state has no `errors` object). -/
structure WidgetState where
  attrs : Attrs := {}
  errors : Option WErrors := none
deriving DecidableEq, Repr

/-- `i18n.get("{0} is invalid", title)`, modelled as substitution of the
title for the placeholder in the (untranslated) message. -/
def i18nGetInvalid (title : Option String) : String :=
  "{0} is invalid".replace "{0}" (title.getD "undefined")

/-- `handleCondition` from `useExpressions`: compute the boolean value
of the expression (already evaluated to `exprVal` against the record
context), negate it when asked, and write it to the named attribute
only when it differs from the current value. -/
def handleCondition (st : WidgetState) (attr : AttrName) (exprVal : Val)
    (negate : Bool := false) : WidgetState :=
  let value := jsBool exprVal
  let prev := getAttr st.attrs attr
  let next := if negate then !value else value
  if some next ≠ prev then
    { st with attrs := setAttr st.attrs attr next }
  else st

/-- `handleValidation` from `useExpressions`: add the localized
"{0} is invalid" error under the `invalid` key when the `validIf`
expression value is falsy, remove it when truthy, and write the widget
state only when the resulting errors differ from the current ones. -/
def handleValidation (st : WidgetState) (exprVal : Val) : WidgetState :=
  let errors₀ : WErrors :=
    { st.errors.getD {} with invalid := some (i18nGetInvalid st.attrs.title) }
  let errors :=
    if jsBool exprVal then { errors₀ with invalid := none } else errors₀
  if st.errors ≠ some errors then { st with errors := some errors } else st

/-- The effect of `handleBind` on the value atom: from the previous
value and the evaluated `bind` expression, the value written
(`parseAngularExp(bind)(context) ?? null`) and the dirty flag passed to
the setter (`isUndefined(prevValue) ? false : prevValue !== value`). -/
def handleBind (prevValue : Val) (bindVal : Val) : Val × Bool :=
  let value := if bindVal = .vundef ∨ bindVal = .vnull then .vnull else bindVal
  let isDirty := if prevValue = .vundef then false else prevValue ≠ value
  (value, isDirty)

/-- One guarded `handleCondition` call of the subscription body:
`if (expr) handleCondition(ctx, attr, expr, negate)`, with `ev` giving
the value of `parseExpression(expr)(context)`. -/
def applyCondIf (ev : String → Val) (expr : Option String) (attr : AttrName)
    (negate : Bool) (st : WidgetState) : WidgetState :=
  if jsTruthyStr expr then handleCondition st attr (ev (expr.getD "")) negate
  else st

/-- Field-level state: the widget state plus the value atom content and
the dirty flag last passed to the value setter (`none` before any
`handleBind` write). -/
structure FieldState where
  widget : WidgetState := {}
  value : Val := .vundef
  lastSetDirty : Option Bool := none
deriving DecidableEq, Repr

/-- The trailing `canNew` … `canSelect` block of the subscription body
in `useExpressions`, in source order (`p` is the processed schema). -/
def canUpdates (p : Schema) (ev : String → Val) (w : WidgetState) :
    WidgetState :=
  let w := applyCondIf ev p.canNew .canNew false w
  let w := applyCondIf ev p.canEdit .canEdit false w
  let w := applyCondIf ev p.canView .canView false w
  let w := applyCondIf ev p.canSave .canSave false w
  let w := applyCondIf ev p.canCopy .canCopy false w
  let w := applyCondIf ev p.canRemove .canRemove false w
  let w := applyCondIf ev p.canDelete .canDelete false w
  let w := applyCondIf ev p.canArchive .canArchive false w
  let w := applyCondIf ev p.canAttach .canAttach false w
  applyCondIf ev p.canSelect .canSelect false w

/-- The `showIf` … `canSelect` condition/validation calls of the
subscription body in `useExpressions`, in source order (`p` is the
processed schema). -/
def condUpdates (p : Schema) (ev : String → Val) (w : WidgetState) :
    WidgetState :=
  let w := applyCondIf ev p.showIf .hidden true w
  let w := applyCondIf ev p.hideIf .hidden false w
  let w := applyCondIf ev p.readonlyIf .readonly false w
  let w := applyCondIf ev p.requiredIf .required false w
  let w := applyCondIf ev p.collapseIf .collapse false w
  let w :=
    if jsTruthyStr p.validIf then handleValidation w (ev (p.validIf.getD ""))
    else w
  canUpdates p ev w

/-- The body of the `recordHandler.subscribe` callback in
`useExpressions`, run on each record update: destructure the processed
schema, run `handleBind` when a `bind` expression is present (and a
value atom exists, i.e. the schema is a field), then the
`handleCondition`/`handleValidation` calls in source order.  `ev` gives
`parseExpression(e)(context)` and `evAngular` gives
`parseAngularExp(e)(context)` for the record's evaluation context. -/
def recordUpdate (schema : Schema) (ev evAngular : String → Val)
    (st : FieldState) : FieldState :=
  let p := processSchema schema
  let st :=
    if jsTruthyStr p.bind ∧ isField schema then
      let r := handleBind st.value (evAngular (p.bind.getD ""))
      { st with value := r.1, lastSetDirty := some r.2 }
    else st
  { st with widget := condUpdates p ev st.widget }

/-- What `FormWidget` returns: the render-prop component, nothing
(hidden), the field viewer, the field editor, or the plain form item. -/
inductive Rendered where
  | comp | nothing | viewer | editor | formItem
deriving DecidableEq, Repr

/-- Whether `FormWidget` creates a value atom for the schema
(`isField(schema) ? createValueAtom(...) : undefined`). -/
def hasValueAtom (schema : Schema) : Bool :=
  isField schema

/-- The dispatch of `FormWidget`: derived flags from the widget
attributes (`hidden`, `readonly || props.readonly`,
`canEdit ?? true`, `canView ?? true`) and the schema's editor/viewer
sub-views, then the render-prop, hidden, viewer, editor and form-item
branches in source order. -/
def FormWidget (schema : Schema) (attrs : Attrs) (propsReadonly : Bool)
    (hasRenderProp : Bool) : Rendered :=
  let valueAtom := hasValueAtom schema
  let hidden := jsTruthyBool attrs.hidden
  let readonly := jsTruthyBool attrs.readonly || propsReadonly
  let canEdit := attrs.canEdit.getD true
  let canView := attrs.canView.getD true
  let canShowEditor :=
    schema.editor.isSome && valueAtom && canEdit && !readonly
  let canShowViewer := schema.viewer && valueAtom && canView && readonly
  let showEditorAsViewer :=
    (schema.editor.map (fun e => e.viewer)).getD false && valueAtom &&
      canView && readonly
  if hasRenderProp then .comp
  else if hidden then .nothing
  else if canShowViewer then .viewer
  else if canShowEditor || showEditorAsViewer then .editor
  else .formItem

/-- A data record / evaluation context, as an association of field
names to values (passed opaquely to validation). -/
abbrev DataRecord := List (String × Val)

/-- The props `{ ...schema, ...prev.attrs }` that `valueCheck` passes to
`validate`: widget-attribute keys override the schema keys of the same
name, the remaining schema keys are carried over. -/
structure MergedProps where
  type : String
  name : Option String
  title : Option String
  widget : Option String
  jsonField : Option String
  hidden : Option Bool
  required : Option Bool
  readonly : Option Bool
  collapse : Option Bool
  canNew : Option Val
  canEdit : Option Val
  canView : Option Val
  canSave : Option Val
  canCopy : Option Val
  canRemove : Option Val
  canDelete : Option Val
  canArchive : Option Val
  canAttach : Option Val
  canSelect : Option Val
deriving DecidableEq, Repr

/-- `{ ...schema, ...attrs }`: an attribute key that is present wins
over the schema key of the same name. -/
def mergeProps (schema : Schema) (attrs : Attrs) : MergedProps where
  type := schema.type
  name := schema.name
  title := attrs.title <|> schema.title
  widget := schema.widget
  jsonField := schema.jsonField
  hidden := attrs.hidden <|> schema.hidden
  required := attrs.required <|> schema.required
  readonly := attrs.readonly
  collapse := attrs.collapse
  canNew := (attrs.canNew.map Val.vbool) <|> (schema.canNew.map Val.vstr)
  canEdit := (attrs.canEdit.map Val.vbool) <|> (schema.canEdit.map Val.vstr)
  canView := (attrs.canView.map Val.vbool) <|> (schema.canView.map Val.vstr)
  canSave := (attrs.canSave.map Val.vbool) <|> (schema.canSave.map Val.vstr)
  canCopy := (attrs.canCopy.map Val.vbool) <|> (schema.canCopy.map Val.vstr)
  canRemove :=
    (attrs.canRemove.map Val.vbool) <|> (schema.canRemove.map Val.vstr)
  canDelete :=
    (attrs.canDelete.map Val.vbool) <|> (schema.canDelete.map Val.vstr)
  canArchive :=
    (attrs.canArchive.map Val.vbool) <|> (schema.canArchive.map Val.vstr)
  canAttach :=
    (attrs.canAttach.map Val.vbool) <|> (schema.canAttach.map Val.vstr)
  canSelect :=
    (attrs.canSelect.map Val.vbool) <|> (schema.canSelect.map Val.vstr)

/-- `valueCheck` from `FormField`, parameterised by the (external)
`validate` function `vf`: validate the current value against the merged
props in the record's context, re-attach a pre-existing `invalid` error
when it is truthy (`errors = invalid ? { invalid, ...errors } : errors`
is a JS truthiness test, so an empty-string entry is dropped, and a
fresh `invalid` from `vf` wins over the re-attached one), and write the
widget atom only when the result differs from the previous errors
(`isEqual(prev.errors ?? {}, errors ?? {})`). -/
def valueCheck (vf : Val → MergedProps → DataRecord → Option WErrors)
    (value : Val) (schema : Schema) (record : DataRecord)
    (st : WidgetState) : WidgetState :=
  let errors₀ := vf value (mergeProps schema st.attrs) record
  let invalid := st.errors.bind (fun e => e.invalid)
  let errors : Option WErrors :=
    if jsTruthyStr invalid then
      some { errors₀.getD {} with
               invalid := (errors₀.getD {}).invalid <|> invalid }
    else errors₀
  if st.errors.getD {} = errors.getD {} then st
  else { st with errors := errors }

/-- `FALLBACK_COUNTRIES` from the Phone widget: country codes used when
the language code alone gives no country. -/
def FALLBACK_COUNTRIES : List (String × String) :=
  [("af", "za"), ("ar", "sa"), ("be", "by"), ("bn", "bd"), ("bs", "ba"),
   ("cs", "cz"), ("da", "dk"), ("el", "gr"), ("en", "us"), ("et", "ee"),
   ("fa", "ir"), ("gu", "in"), ("he", "il"), ("hi", "in"), ("ja", "jp"),
   ("ko", "kr"), ("ms", "my"), ("sv", "se"), ("uk", "ua"), ("vi", "vn"),
   ("zh", "cn")]

/-- `FALLBACK_COUNTRIES[language]`, `none` when the language has no entry. -/
def fallbackCountry (language : String) : Option String :=
  (FALLBACK_COUNTRIES.find? (fun p => p.1 == language)).map (fun p => p.2)

/-- `defaultCountry` from the Phone widget.  `language` and `country`
are the (lowercased) language and optional country parts derived from
the locale and `navigator.languages`; the initial-country widget
attribute wins when truthy, then the locale country, the language
fallback table, or the bare language; finally, when `onlyCountries` is
non-empty and does not contain the candidate, the list's first element
is used. -/
def defaultCountry (initialCountry : Option String) (language : String)
    (country : Option String) (onlyCountries : List String) : String :=
  let dc :=
    if jsTruthyStr initialCountry then initialCountry.getD ""
    else (country <|> fallbackCountry language).getD language
  if !onlyCountries.isEmpty && !onlyCountries.contains dc then
    onlyCountries.headD dc
  else dc

/-- `countryIso2` from the Phone widget: the selected country's iso2
code, replaced by the computed default country when `onlyCountries` is
non-empty and does not contain it. -/
def countryIso2 (iso2 : String) (defaultCountry : String)
    (onlyCountries : List String) : String :=
  if !onlyCountries.isEmpty && !onlyCountries.contains iso2 then
    defaultCountry
  else iso2

/-- The value the Phone widget's change handler propagates:
`phone !== '+' + country.dialCode ? phone : ''`. -/
def phoneChangeValue (phone dialCode : String) : String :=
  if phone ≠ "+" ++ dialCode then phone else ""

/-- The value the Phone widget's blur handler propagates:
`phone !== '+' + country.dialCode ? phone : ''`. -/
def phoneBlurValue (phone dialCode : String) : String :=
  if phone ≠ "+" ++ dialCode then phone else ""

theorem getAttr_setAttr_same (a : Attrs) (n : AttrName) (v : Bool) :
    getAttr (setAttr a n v) n = some v := by
  cases n <;> rfl

theorem getAttr_setAttr_ne (a : Attrs) (n m : AttrName) (v : Bool)
    (h : m ≠ n) : getAttr (setAttr a n v) m = getAttr a m := by
  cases n <;> cases m <;> simp_all [getAttr, setAttr]

theorem setAttr_title (a : Attrs) (n : AttrName) (v : Bool) :
    (setAttr a n v).title = a.title := by
  cases n <;> rfl

theorem handleCondition_errors (st : WidgetState) (a : AttrName) (v : Val)
    (neg : Bool) : (handleCondition st a v neg).errors = st.errors := by
  dsimp only [handleCondition]
  split <;> split <;> rfl

theorem handleCondition_title (st : WidgetState) (a : AttrName) (v : Val)
    (neg : Bool) :
    (handleCondition st a v neg).attrs.title = st.attrs.title := by
  dsimp only [handleCondition]
  split <;> split <;> first
    | exact setAttr_title st.attrs a _
    | rfl

theorem handleCondition_getAttr_same (st : WidgetState) (a : AttrName)
    (v : Val) (neg : Bool) :
    getAttr (handleCondition st a v neg).attrs a
      = some (if neg then !(jsBool v) else jsBool v) := by
  dsimp only [handleCondition]
  split <;> split
  · exact getAttr_setAttr_same st.attrs a _
  · rename_i h
    rw [not_ne_iff] at h
    exact h.symm
  · exact getAttr_setAttr_same st.attrs a _
  · rename_i h
    rw [not_ne_iff] at h
    exact h.symm

theorem handleCondition_getAttr_ne (st : WidgetState) (a b : AttrName)
    (v : Val) (neg : Bool) (h : b ≠ a) :
    getAttr (handleCondition st a v neg).attrs b = getAttr st.attrs b := by
  dsimp only [handleCondition]
  split <;> split <;> first
    | exact getAttr_setAttr_ne st.attrs a b _ h
    | rfl

theorem applyCondIf_errors (ev : String → Val) (e : Option String)
    (a : AttrName) (neg : Bool) (w : WidgetState) :
    (applyCondIf ev e a neg w).errors = w.errors := by
  dsimp only [applyCondIf]
  split
  · exact handleCondition_errors w a _ neg
  · rfl

theorem applyCondIf_title (ev : String → Val) (e : Option String)
    (a : AttrName) (neg : Bool) (w : WidgetState) :
    (applyCondIf ev e a neg w).attrs.title = w.attrs.title := by
  dsimp only [applyCondIf]
  split
  · exact handleCondition_title w a _ neg
  · rfl

theorem applyCondIf_getAttr_ne (ev : String → Val) (e : Option String)
    (a b : AttrName) (neg : Bool) (w : WidgetState) (h : b ≠ a) :
    getAttr (applyCondIf ev e a neg w).attrs b = getAttr w.attrs b := by
  dsimp only [applyCondIf]
  split
  · exact handleCondition_getAttr_ne w a b _ neg h
  · rfl

theorem applyCondIf_pos (ev : String → Val) (e : Option String)
    (a : AttrName) (neg : Bool) (w : WidgetState)
    (h : jsTruthyStr e = true) :
    applyCondIf ev e a neg w = handleCondition w a (ev (e.getD "")) neg := by
  dsimp only [applyCondIf]
  rw [if_pos h]

theorem applyCondIf_neg (ev : String → Val) (e : Option String)
    (a : AttrName) (neg : Bool) (w : WidgetState)
    (h : jsTruthyStr e = false) : applyCondIf ev e a neg w = w := by
  dsimp only [applyCondIf]
  rw [if_neg (by simp [h])]

theorem handleValidation_attrs (st : WidgetState) (v : Val) :
    (handleValidation st v).attrs = st.attrs := by
  dsimp only [handleValidation]
  split <;> split <;> rfl

/-- The attribute value `handleCondition` computes:
`negate ? !value : value` for the boolean `value` of the expression. -/
def handleConditionNext (v : Val) (neg : Bool) : Bool :=
  if neg then !(jsBool v) else jsBool v

theorem handleCondition_eq (st : WidgetState) (a : AttrName) (v : Val)
    (neg : Bool) :
    handleCondition st a v neg =
      if some (handleConditionNext v neg) ≠ getAttr st.attrs a then
        { st with attrs := setAttr st.attrs a (handleConditionNext v neg) }
      else st := rfl

/-- The error record `handleValidation` computes: the previous errors
with the `invalid` entry removed when the expression value is truthy,
and set to the localized "{0} is invalid" message otherwise. -/
def handleValidationErrors (st : WidgetState) (v : Val) : WErrors :=
  if jsBool v then { st.errors.getD {} with invalid := none }
  else { st.errors.getD {} with
           invalid := some (i18nGetInvalid st.attrs.title) }

theorem handleValidation_eq (st : WidgetState) (v : Val) :
    handleValidation st v =
      if st.errors ≠ some (handleValidationErrors st v) then
        { st with errors := some (handleValidationErrors st v) }
      else st := rfl

theorem handleValidation_errors (st : WidgetState) (v : Val) :
    (handleValidation st v).errors = some (handleValidationErrors st v) := by
  rw [handleValidation_eq]
  split
  · rfl
  · rename_i h
    rw [not_ne_iff] at h
    exact h

theorem handleValidation_skip (st : WidgetState) (v : Val)
    (h : st.errors = some (handleValidationErrors st v)) :
    handleValidation st v = st := by
  rw [handleValidation_eq, if_neg (by rw [not_ne_iff]; exact h)]

theorem canUpdates_errors (p : Schema) (ev : String → Val)
    (w : WidgetState) : (canUpdates p ev w).errors = w.errors := by
  simp only [canUpdates, applyCondIf_errors]

theorem canUpdates_title (p : Schema) (ev : String → Val) (w : WidgetState) :
    (canUpdates p ev w).attrs.title = w.attrs.title := by
  simp only [canUpdates, applyCondIf_title]

theorem canUpdates_getAttr (p : Schema) (ev : String → Val) (w : WidgetState)
    (b : AttrName)
    (h : b = .hidden ∨ b = .readonly ∨ b = .required ∨ b = .collapse) :
    getAttr (canUpdates p ev w).attrs b = getAttr w.attrs b := by
  dsimp only [canUpdates]
  rw [applyCondIf_getAttr_ne, applyCondIf_getAttr_ne, applyCondIf_getAttr_ne,
    applyCondIf_getAttr_ne, applyCondIf_getAttr_ne, applyCondIf_getAttr_ne,
    applyCondIf_getAttr_ne, applyCondIf_getAttr_ne, applyCondIf_getAttr_ne,
    applyCondIf_getAttr_ne] <;>
    rcases h with rfl | rfl | rfl | rfl <;> decide

theorem validIfStep_attrs (p : Schema) (ev : String → Val)
    (w : WidgetState) :
    (if jsTruthyStr p.validIf then handleValidation w (ev (p.validIf.getD ""))
     else w).attrs = w.attrs := by
  split
  · exact handleValidation_attrs _ _
  · rfl

theorem condUpdates_hidden_hideIf (p : Schema) (ev : String → Val)
    (w : WidgetState) (h : jsTruthyStr p.hideIf = true) :
    getAttr (condUpdates p ev w).attrs .hidden
      = some (jsBool (ev (p.hideIf.getD ""))) := by
  dsimp only [condUpdates]
  rw [canUpdates_getAttr _ _ _ _ (Or.inl rfl), validIfStep_attrs,
    applyCondIf_getAttr_ne, applyCondIf_getAttr_ne, applyCondIf_getAttr_ne,
    applyCondIf_pos _ _ _ _ _ h, handleCondition_getAttr_same]
  all_goals first | rfl | decide

theorem condUpdates_hidden_showIf (p : Schema) (ev : String → Val)
    (w : WidgetState) (hs : jsTruthyStr p.showIf = true)
    (hh : jsTruthyStr p.hideIf = false) :
    getAttr (condUpdates p ev w).attrs .hidden
      = some (!(jsBool (ev (p.showIf.getD "")))) := by
  dsimp only [condUpdates]
  rw [canUpdates_getAttr _ _ _ _ (Or.inl rfl), validIfStep_attrs,
    applyCondIf_getAttr_ne, applyCondIf_getAttr_ne, applyCondIf_getAttr_ne,
    applyCondIf_neg _ _ _ _ _ hh,
    applyCondIf_pos _ _ _ _ _ hs, handleCondition_getAttr_same]
  all_goals first | rfl | decide

theorem condUpdates_readonly (p : Schema) (ev : String → Val)
    (w : WidgetState) (h : jsTruthyStr p.readonlyIf = true) :
    getAttr (condUpdates p ev w).attrs .readonly
      = some (jsBool (ev (p.readonlyIf.getD ""))) := by
  dsimp only [condUpdates]
  rw [canUpdates_getAttr _ _ _ _ (Or.inr (Or.inl rfl)), validIfStep_attrs,
    applyCondIf_getAttr_ne, applyCondIf_getAttr_ne,
    applyCondIf_pos _ _ _ _ _ h, handleCondition_getAttr_same]
  all_goals first | rfl | decide

theorem condUpdates_required (p : Schema) (ev : String → Val)
    (w : WidgetState) (h : jsTruthyStr p.requiredIf = true) :
    getAttr (condUpdates p ev w).attrs .required
      = some (jsBool (ev (p.requiredIf.getD ""))) := by
  dsimp only [condUpdates]
  rw [canUpdates_getAttr _ _ _ _ (Or.inr (Or.inr (Or.inl rfl))),
    validIfStep_attrs, applyCondIf_getAttr_ne,
    applyCondIf_pos _ _ _ _ _ h, handleCondition_getAttr_same]
  all_goals first | rfl | decide

theorem condUpdates_collapse (p : Schema) (ev : String → Val)
    (w : WidgetState) (h : jsTruthyStr p.collapseIf = true) :
    getAttr (condUpdates p ev w).attrs .collapse
      = some (jsBool (ev (p.collapseIf.getD ""))) := by
  dsimp only [condUpdates]
  rw [canUpdates_getAttr _ _ _ _ (Or.inr (Or.inr (Or.inr rfl))),
    validIfStep_attrs,
    applyCondIf_pos _ _ _ _ _ h, handleCondition_getAttr_same]
  rfl

theorem condUpdates_errors_validIf (p : Schema) (ev : String → Val)
    (w : WidgetState) (h : jsTruthyStr p.validIf = true) :
    (condUpdates p ev w).errors =
      some (if jsBool (ev (p.validIf.getD "")) then
              { w.errors.getD {} with invalid := none }
            else { w.errors.getD {} with
                     invalid := some (i18nGetInvalid w.attrs.title) }) := by
  dsimp only [condUpdates]
  rw [canUpdates_errors, if_pos h, handleValidation_errors]
  unfold handleValidationErrors
  simp only [applyCondIf_errors, applyCondIf_title]

theorem processSchema_bind (s : Schema) : (processSchema s).bind = s.bind := by
  dsimp only [processSchema]
  split <;> rfl

theorem processSchema_validIf (s : Schema) :
    (processSchema s).validIf = s.validIf := by
  dsimp only [processSchema]
  split <;> rfl

theorem processSchema_readonlyIf (s : Schema) :
    (processSchema s).readonlyIf = s.readonlyIf := by
  dsimp only [processSchema]
  split <;> rfl

theorem processSchema_collapseIf (s : Schema) :
    (processSchema s).collapseIf = s.collapseIf := by
  dsimp only [processSchema]
  split <;> rfl

theorem recordUpdate_widget (s : Schema) (ev evA : String → Val)
    (st : FieldState) :
    (recordUpdate s ev evA st).widget
      = condUpdates (processSchema s) ev st.widget := by
  dsimp only [recordUpdate]
  split <;> rfl

/-- The error record `valueCheck` computes before the write decision:
the validation result with a truthy (non-empty) pre-existing `invalid`
entry re-attached (`{ invalid, ...errors }`: a fresh `invalid` from
validation wins); a falsy pre-existing entry fails the `invalid ?` test
and is dropped. -/
def valueCheckErrors (vf : Val → MergedProps → DataRecord → Option WErrors)
    (value : Val) (schema : Schema) (record : DataRecord)
    (st : WidgetState) : Option WErrors :=
  if jsTruthyStr (st.errors.bind (fun e => e.invalid)) then
    some { (vf value (mergeProps schema st.attrs) record).getD {} with
             invalid :=
               ((vf value (mergeProps schema st.attrs) record).getD
                   {}).invalid <|> st.errors.bind (fun e => e.invalid) }
  else vf value (mergeProps schema st.attrs) record

theorem valueCheck_eq (vf : Val → MergedProps → DataRecord → Option WErrors)
    (value : Val) (schema : Schema) (record : DataRecord)
    (st : WidgetState) :
    valueCheck vf value schema record st =
      if st.errors.getD {}
          = (valueCheckErrors vf value schema record st).getD {} then st
      else { st with errors := valueCheckErrors vf value schema record st } :=
  rfl

theorem valueCheckErrors_getD (vf : Val → MergedProps → DataRecord → Option WErrors)
    (value : Val) (schema : Schema) (record : DataRecord)
    (st : WidgetState) :
    (valueCheckErrors vf value schema record st).getD {} =
      { (vf value (mergeProps schema st.attrs) record).getD {} with
          invalid :=
            ((vf value (mergeProps schema st.attrs) record).getD {}).invalid
              <|> ((st.errors.getD {}).invalid.filter
                    (fun m => m ≠ "")) } := by
  unfold valueCheckErrors
  cases hst : st.errors with
  | none =>
      cases hv : vf value (mergeProps schema st.attrs) record with
      | none => simp [jsTruthyStr]
      | some e0 =>
          obtain ⟨er, inv, req, pat⟩ := e0
          cases inv <;> simp [jsTruthyStr]
  | some e =>
      obtain ⟨eer, einv, ereq, epat⟩ := e
      simp only [hst]
      cases einv with
      | none =>
          cases hv : vf value (mergeProps schema st.attrs) record with
          | none => simp [jsTruthyStr]
          | some e0 =>
              obtain ⟨er, inv, req, pat⟩ := e0
              cases inv <;> simp [jsTruthyStr, Option.filter]
      | some m =>
          by_cases hm : m = ""
          · subst hm
            cases hv : vf value (mergeProps schema st.attrs) record with
            | none => simp [jsTruthyStr, Option.filter]
            | some e0 =>
                obtain ⟨er, inv, req, pat⟩ := e0
                cases inv <;> simp [jsTruthyStr, Option.filter]
          · cases hv : vf value (mergeProps schema st.attrs) record with
            | none => simp [jsTruthyStr, Option.filter, hm]
            | some e0 =>
                obtain ⟨er, inv, req, pat⟩ := e0
                cases inv <;> simp [jsTruthyStr, Option.filter, hm]

/-- Claim C3 (amended): valueCheck recomputes the errors by validating
the current value against the schema merged with the current widget
attributes in the context of the current record, preserves a truthy
(non-empty) pre-existing `invalid` error by merging it into the new
errors (a fresh `invalid` from validation wins; a falsy, e.g.
empty-string, pre-existing entry is dropped), and leaves the widget
state unchanged when the resulting errors equal the previous ones. -/
theorem valueCheck_recompute (vf : Val → MergedProps → DataRecord → Option WErrors)
    (value : Val) (s : Schema) (record : DataRecord) (st : WidgetState) :
    ((valueCheck vf value s record st).errors.getD {}).invalid
        = (((vf value (mergeProps s st.attrs) record).getD {}).invalid
            <|> ((st.errors.getD {}).invalid.filter (fun m => m ≠ ""))) ∧
    ((valueCheck vf value s record st).errors.getD {}).error
        = ((vf value (mergeProps s st.attrs) record).getD {}).error ∧
    ((valueCheck vf value s record st).errors.getD {}).required
        = ((vf value (mergeProps s st.attrs) record).getD {}).required ∧
    ((valueCheck vf value s record st).errors.getD {}).pattern
        = ((vf value (mergeProps s st.attrs) record).getD {}).pattern ∧
    (valueCheck vf value s record st).attrs = st.attrs ∧
    ((valueCheck vf value s record st).errors.getD {} = st.errors.getD {} →
      valueCheck vf value s record st = st) := by
  have hE := valueCheckErrors_getD vf value s record st
  rw [valueCheck_eq]
  split
  · rename_i heq
    have h1 := heq.trans hE
    have hi := congrArg WErrors.invalid h1
    have he := congrArg WErrors.error h1
    have hr := congrArg WErrors.required h1
    have hp := congrArg WErrors.pattern h1
    exact ⟨hi, he, hr, hp, rfl, fun _ => rfl⟩
  · rename_i hne
    have hi := congrArg WErrors.invalid hE
    have he := congrArg WErrors.error hE
    have hr := congrArg WErrors.required hE
    have hp := congrArg WErrors.pattern hE
    exact ⟨hi, he, hr, hp, rfl, fun h => absurd h.symm hne⟩

/-- Claim C3, counterexample: a pre-existing `invalid` entry holding
the empty string is falsy in JS, so the `invalid ?` truthiness test
fails and `valueCheck` drops the entry instead of preserving it: with a
validator returning no errors, the resulting widget errors are
`undefined` and the empty-string `invalid` entry is gone, contrary to
the claim's "preserves any pre-existing 'invalid' error by merging it
into the new errors". -/
theorem valueCheck_preserve_counterexample :
    (valueCheck (fun _ _ _ => none) Val.vnull { type := "field" } []
        { attrs := {}, errors := some { invalid := some "" } }).errors
      = none ∧
    ¬ (((valueCheck (fun _ _ _ => none) Val.vnull { type := "field" } []
          { attrs := {}, errors := some { invalid := some "" } }).errors.getD
            {}).invalid = some "") := by
  decide

/-- Claim C1, counterexample: for the schema
`{ type := "panel", showIf := "x", hideIf := "x" }` and a record context
in which the expression "x" evaluates to `true`, the record update
leaves `hidden = some true` (the `hideIf` handler runs after the
`showIf` handler and overwrites it), not the negation `some false` of
the `showIf` value that the claim requires. -/
theorem useExpressions_showIf_counterexample :
    ¬ ((recordUpdate { type := "panel", showIf := some "x", hideIf := some "x" }
          (fun _ => .vbool true) (fun _ => .vbool true) {}).widget.attrs.hidden
        = some (!(jsBool (Val.vbool true)))) := by
  decide

/-- Claim C1 (amended): on each record update, for the schema produced
by context-field processing (`processSchema`): when `showIf` is present
and `hideIf` is absent, `hidden` is set to the negation of the boolean
value of `showIf`; when `hideIf` is present, `hidden` is set to the
boolean value of `hideIf` (`hideIf` overrides `showIf` when both are
present); `readonlyIf`, `requiredIf` and `collapseIf` set `readonly`,
`required` and `collapse` to the (non-negated) boolean value of their
expression. -/
theorem useExpressions_condition_attrs (s : Schema) (ev evA : String → Val)
    (st : FieldState) :
    (jsTruthyStr (processSchema s).showIf = true →
      jsTruthyStr (processSchema s).hideIf = false →
      (recordUpdate s ev evA st).widget.attrs.hidden
        = some (!(jsBool (ev ((processSchema s).showIf.getD ""))))) ∧
    (jsTruthyStr (processSchema s).hideIf = true →
      (recordUpdate s ev evA st).widget.attrs.hidden
        = some (jsBool (ev ((processSchema s).hideIf.getD "")))) ∧
    (jsTruthyStr (processSchema s).readonlyIf = true →
      (recordUpdate s ev evA st).widget.attrs.readonly
        = some (jsBool (ev ((processSchema s).readonlyIf.getD "")))) ∧
    (jsTruthyStr (processSchema s).requiredIf = true →
      (recordUpdate s ev evA st).widget.attrs.required
        = some (jsBool (ev ((processSchema s).requiredIf.getD "")))) ∧
    (jsTruthyStr (processSchema s).collapseIf = true →
      (recordUpdate s ev evA st).widget.attrs.collapse
        = some (jsBool (ev ((processSchema s).collapseIf.getD "")))) := by
  rw [recordUpdate_widget]
  exact ⟨fun hs hh => condUpdates_hidden_showIf _ ev st.widget hs hh,
    fun hh => condUpdates_hidden_hideIf _ ev st.widget hh,
    fun hr => condUpdates_readonly _ ev st.widget hr,
    fun hr => condUpdates_required _ ev st.widget hr,
    fun hc => condUpdates_collapse _ ev st.widget hc⟩

/-- Claim C4: for a schema with a `bind` expression (and a value atom),
each record update writes the evaluated `bind` expression to the field
value, with `null` substituted for `null`/`undefined` results; the
dirty flag passed with the write is `false` when the previous value was
`undefined`, and otherwise true exactly when the new value differs from
the previous one. -/
theorem useExpressions_bind (s : Schema) (ev evA : String → Val)
    (st : FieldState) (hb : jsTruthyStr s.bind = true)
    (hf : isField s = true) :
    (recordUpdate s ev evA st).value =
      (if evA (s.bind.getD "") = Val.vundef ∨ evA (s.bind.getD "") = Val.vnull
       then Val.vnull else evA (s.bind.getD "")) ∧
    (recordUpdate s ev evA st).lastSetDirty =
      some (if st.value = Val.vundef then false
            else decide (st.value ≠ (recordUpdate s ev evA st).value)) := by
  dsimp only [recordUpdate]
  rw [processSchema_bind, if_pos ⟨hb, hf⟩]
  dsimp only [handleBind]
  constructor
  · rfl
  · split <;> rfl

/-- Claim C5: for a schema with a `validIf` expression, each record
update sets the widget errors so that the `invalid` entry (the
localized "{0} is invalid" message applied to the widget title) is
present exactly when the expression value is falsy, all other error
entries being kept; and `handleValidation` writes the widget atom only
when the resulting errors differ from the previous ones. -/
theorem useExpressions_validIf (s : Schema) (ev evA : String → Val)
    (st : FieldState) (h : jsTruthyStr s.validIf = true) :
    (recordUpdate s ev evA st).widget.errors =
      some (if jsBool (ev (s.validIf.getD "")) then
              { st.widget.errors.getD {} with invalid := none }
            else { st.widget.errors.getD {} with
                     invalid :=
                       some (i18nGetInvalid st.widget.attrs.title) }) ∧
    (∀ w : WidgetState, ∀ v : Val,
        w.errors = some (handleValidationErrors w v) →
        handleValidation w v = w) := by
  constructor
  · rw [recordUpdate_widget]
    have h' : jsTruthyStr (processSchema s).validIf = true := by
      rw [processSchema_validIf]
      exact h
    rw [condUpdates_errors_validIf _ ev st.widget h', processSchema_validIf]
  · exact fun w v => handleValidation_skip w v

/-- Claim C5, witness at a concrete input: a falsy `validIf` value adds
the `invalid` error for the widget titled "Code". -/
theorem useExpressions_validIf_witness :
    (recordUpdate { type := "field", validIf := some "v" }
        (fun _ => .vbool false) (fun _ => .vnull)
        { widget := { attrs := { title := some "Code" } } }).widget.errors =
      some { invalid := some (i18nGetInvalid (some "Code")) } := by
  have h := useExpressions_validIf { type := "field", validIf := some "v" }
    (fun _ => .vbool false) (fun _ => .vnull)
    { widget := { attrs := { title := some "Code" } } } (by decide)
  simpa using h.1

/-- Claim C7: `handleCondition` is a no-op when the computed attribute
value equals the current one; it always leaves the named attribute at
the computed `negate ? !value : value`, and every other attribute, the
title and the errors are carried over unchanged. -/
theorem handleCondition_frame (st : WidgetState) (a : AttrName) (v : Val)
    (neg : Bool) :
    (getAttr st.attrs a = some (handleConditionNext v neg) →
      handleCondition st a v neg = st) ∧
    getAttr (handleCondition st a v neg).attrs a
      = some (handleConditionNext v neg) ∧
    (∀ b : AttrName, b ≠ a →
      getAttr (handleCondition st a v neg).attrs b = getAttr st.attrs b) ∧
    (handleCondition st a v neg).attrs.title = st.attrs.title ∧
    (handleCondition st a v neg).errors = st.errors := by
  refine ⟨?_, ?_, ?_, handleCondition_title st a v neg,
    handleCondition_errors st a v neg⟩
  · intro h
    rw [handleCondition_eq, if_neg (by rw [not_ne_iff]; exact h.symm)]
  · exact handleCondition_getAttr_same st a v neg
  · exact fun b hb => handleCondition_getAttr_ne st a b v neg hb

/-- Claim C8: a value atom is created exactly for field-like schemas:
those with a (truthy) `jsonField`, or of type `"field"` or
`"panel-related"`. -/
theorem hasValueAtom_iff (s : Schema) :
    hasValueAtom s = true ↔
      (jsTruthyStr s.jsonField = true ∨ s.type = "field" ∨
        s.type = "panel-related") := by
  simp [hasValueAtom, isField, Bool.or_eq_true, beq_iff_eq, or_assoc]

/-- Claim C9: when the phone string is exactly "+" followed by the
selected country's dial code, both the change handler and the blur
handler propagate the empty string; for any other phone string they
propagate the phone string itself. -/
theorem phone_dialCode_only (phone dialCode : String) :
    (phone = "+" ++ dialCode →
      phoneChangeValue phone dialCode = "" ∧
        phoneBlurValue phone dialCode = "") ∧
    (phone ≠ "+" ++ dialCode →
      phoneChangeValue phone dialCode = phone ∧
        phoneBlurValue phone dialCode = phone) := by
  constructor <;> intro h <;>
    simp [phoneChangeValue, phoneBlurValue, h]

theorem restrict_mem (l : List String) (dc : String) (h : l ≠ []) :
    (if !l.isEmpty && !l.contains dc then l.headD dc else dc) ∈ l := by
  rcases l with _ | ⟨a, t⟩
  · exact absurd rfl h
  · by_cases hdc : dc ∈ a :: t
    · have hc : (a :: t).contains dc = true := by simpa using hdc
      rw [if_neg (by rw [hc]; simp)]
      exact hdc
    · have hc : (a :: t).contains dc = false := by simpa using hdc
      rw [if_pos (by rw [hc]; rfl)]
      exact List.mem_cons_self a t

/-- Claim C10: with a non-empty `onlyCountries` list, the computed
default country is always a member of the list (falling back to its
first element), and the displayed flag's iso2 code is likewise always a
member of the list. -/
theorem phone_onlyCountries_mem (initialCountry : Option String)
    (language : String) (country : Option String)
    (onlyCountries : List String) (iso2 : String)
    (h : onlyCountries ≠ []) :
    defaultCountry initialCountry language country onlyCountries
        ∈ onlyCountries ∧
    countryIso2 iso2
        (defaultCountry initialCountry language country onlyCountries)
        onlyCountries ∈ onlyCountries := by
  have hd :
      defaultCountry initialCountry language country onlyCountries
        ∈ onlyCountries := by
    dsimp only [defaultCountry]
    exact restrict_mem onlyCountries _ h
  refine ⟨hd, ?_⟩
  dsimp only [countryIso2]
  rcases onlyCountries with _ | ⟨a, t⟩
  · exact absurd rfl h
  · by_cases hdc : iso2 ∈ a :: t
    · have hc : (a :: t).contains iso2 = true := by simpa using hdc
      rw [if_neg (by rw [hc]; simp)]
      exact hdc
    · have hc : (a :: t).contains iso2 = false := by simpa using hdc
      rw [if_pos (by rw [hc]; rfl)]
      exact hd

/-- Claim C10, witness at a concrete input: with
`onlyCountries = ["fr", "de"]`, an English locale and a selected
country "gb" outside the list, both values fall back into the list. -/
theorem phone_onlyCountries_mem_witness :
    defaultCountry none "en" none ["fr", "de"] ∈ ["fr", "de"] ∧
    countryIso2 "gb" (defaultCountry none "en" none ["fr", "de"])
        ["fr", "de"] ∈ ["fr", "de"] :=
  phone_onlyCountries_mem none "en" none ["fr", "de"] "gb" (by decide)

/-- Claim C2 (amended): with no render-prop override, `FormWidget`
renders nothing exactly when the widget is hidden; for a visible
widget, the viewer is rendered exactly when the schema has a viewer, a
value atom exists, `canView` holds and the widget is readonly; the
editor is rendered exactly when no viewer is rendered and either the
schema has an editor, a value atom exists, `canEdit` holds and the
widget is not readonly, or the editor has a viewer, a value atom
exists, `canView` holds and the widget is readonly; otherwise the plain
form item is rendered. -/
theorem FormWidget_dispatch (s : Schema) (attrs : Attrs) (pr : Bool) :
    (FormWidget s attrs pr false = Rendered.nothing
        ↔ jsTruthyBool attrs.hidden = true) ∧
    (FormWidget s attrs pr false = Rendered.viewer
        ↔ (jsTruthyBool attrs.hidden = false ∧
            (s.viewer && hasValueAtom s && attrs.canView.getD true &&
              (jsTruthyBool attrs.readonly || pr)) = true)) ∧
    (FormWidget s attrs pr false = Rendered.editor
        ↔ (jsTruthyBool attrs.hidden = false ∧
            (s.viewer && hasValueAtom s && attrs.canView.getD true &&
              (jsTruthyBool attrs.readonly || pr)) = false ∧
            ((s.editor.isSome && hasValueAtom s && attrs.canEdit.getD true &&
                !(jsTruthyBool attrs.readonly || pr)) ||
              ((s.editor.map (fun e => e.viewer)).getD false &&
                hasValueAtom s && attrs.canView.getD true &&
                (jsTruthyBool attrs.readonly || pr))) = true)) ∧
    (FormWidget s attrs pr false = Rendered.formItem
        ↔ (jsTruthyBool attrs.hidden = false ∧
            (s.viewer && hasValueAtom s && attrs.canView.getD true &&
              (jsTruthyBool attrs.readonly || pr)) = false ∧
            ((s.editor.isSome && hasValueAtom s && attrs.canEdit.getD true &&
                !(jsTruthyBool attrs.readonly || pr)) ||
              ((s.editor.map (fun e => e.viewer)).getD false &&
                hasValueAtom s && attrs.canView.getD true &&
                (jsTruthyBool attrs.readonly || pr))) = false)) := by
  dsimp only [FormWidget]
  generalize jsTruthyBool attrs.hidden = b1
  generalize (jsTruthyBool attrs.readonly || pr) = b2
  generalize attrs.canEdit.getD true = b3
  generalize attrs.canView.getD true = b4
  generalize hasValueAtom s = b5
  generalize s.editor.isSome = b6
  generalize (s.editor.map (fun e => e.viewer)).getD false = b7
  generalize s.viewer = b8
  revert b1 b2 b3 b4 b5 b6 b7 b8
  decide

/-- Claim C2, counterexample: for a readonly, visible field whose
schema has both a viewer and an editor with a viewer, the viewer is
rendered although the claim's editor condition ("the editor has a
viewer, a value atom exists, canView holds, and the widget is
readonly") is satisfied, so the claim's "the editor component is
rendered exactly when ..." is false at this input. -/
theorem FormWidget_dispatch_counterexample :
    ¬ ((FormWidget
          { type := "field", viewer := true,
            editor := some { viewer := true } } {} true false
          = Rendered.editor) ↔
        (((({ type := "field", viewer := true,
                editor := some { viewer := true } } : Schema).editor.map
              (fun e => e.viewer)).getD false &&
            hasValueAtom
              { type := "field", viewer := true,
                editor := some { viewer := true } } &&
            (({} : Attrs).canView.getD true) &&
            (jsTruthyBool ({} : Attrs).readonly || true)) = true)) := by
  decide

/-- Claim C6: `processSchema` returns its input unchanged whenever
`jsonField`, `contextField` or `contextFieldValue` is absent (falsy),
or the schema is hidden with neither `showIf` nor `hideIf`; otherwise
it returns the schema with `hideIf` cleared, `showIf` replaced by the
context condition conjoined with the original `showIf` (if any) and
the negation of the original `hideIf` (if any), and `requiredIf`,
whenever `required` or `requiredIf` was set, replaced by the context
condition conjoined with the original `requiredIf` when present; all
other schema fields are unchanged. -/
theorem processSchema_spec (s : Schema) :
    ((jsTruthyStr s.jsonField = false ∨ jsTruthyStr s.contextField = false ∨
        jsTruthyStr s.contextFieldValue = false ∨
        (jsTruthyBool s.hidden = true ∧ jsTruthyStr s.showIf = false ∧
          jsTruthyStr s.hideIf = false)) →
      processSchema s = s) ∧
    ((jsTruthyStr s.jsonField = true ∧ jsTruthyStr s.contextField = true ∧
        jsTruthyStr s.contextFieldValue = true ∧
        ¬(jsTruthyBool s.hidden = true ∧ jsTruthyStr s.showIf = false ∧
            jsTruthyStr s.hideIf = false)) →
      processSchema s =
        { s with
            showIf := some
              (if jsTruthyStr s.hideIf then
                 (if jsTruthyStr s.showIf then
                    "($record." ++ s.contextField.getD "" ++ ".id === " ++
                        s.contextFieldValue.getD "" ++ ")" ++ " && (" ++
                      s.showIf.getD "" ++ ")"
                  else
                    "($record." ++ s.contextField.getD "" ++ ".id === " ++
                      s.contextFieldValue.getD "" ++ ")") ++ " && !(" ++
                   s.hideIf.getD "" ++ ")"
               else
                 (if jsTruthyStr s.showIf then
                    "($record." ++ s.contextField.getD "" ++ ".id === " ++
                        s.contextFieldValue.getD "" ++ ")" ++ " && (" ++
                      s.showIf.getD "" ++ ")"
                  else
                    "($record." ++ s.contextField.getD "" ++ ".id === " ++
                      s.contextFieldValue.getD "" ++ ")"))
            hideIf := none
            requiredIf :=
              if jsTruthyBool s.required || jsTruthyStr s.requiredIf then
                some (if jsTruthyStr s.requiredIf then
                    "($record." ++ s.contextField.getD "" ++ ".id === " ++
                        s.contextFieldValue.getD "" ++ ")" ++ " && (" ++
                      s.requiredIf.getD "" ++ ")"
                  else
                    "($record." ++ s.contextField.getD "" ++ ".id === " ++
                      s.contextFieldValue.getD "" ++ ")")
              else s.requiredIf }) := by
  constructor
  · intro h
    rcases h with h | h | h | ⟨h1, h2, h3⟩
    · dsimp only [processSchema]
      rw [if_pos (by simp [h])]
    · dsimp only [processSchema]
      rw [if_pos (by simp [h])]
    · dsimp only [processSchema]
      rw [if_pos (by simp [h])]
    · dsimp only [processSchema]
      rw [if_pos (by simp [h1, h2, h3])]
  · intro ⟨h1, h2, h3, h4⟩
    dsimp only [processSchema]
    rw [if_neg]
    simp only [h1, h2, h3, Bool.not_true, Bool.false_or]
    intro hc
    rw [Bool.and_eq_true, Bool.and_eq_true] at hc
    exact h4 ⟨hc.1.1, by simpa using hc.1.2, by simpa using hc.2⟩

/-- Claim C4, witness at a concrete input: a `bind` expression
evaluating to 7 on a fresh field (previous value `undefined`) sets the
value to 7 with the dirty flag `false`. -/
theorem useExpressions_bind_witness :
    (recordUpdate { type := "field", bind := some "b" }
        (fun _ => .vnull) (fun _ => .vnum 7) {}).value = Val.vnum 7 ∧
    (recordUpdate { type := "field", bind := some "b" }
        (fun _ => .vnull) (fun _ => .vnum 7) {}).lastSetDirty
      = some false := by
  have h := useExpressions_bind { type := "field", bind := some "b" }
    (fun _ => .vnull) (fun _ => .vnum 7) {} (by decide) (by decide)
  simpa using h
